import Mathlib

/-!
Shallow embedding of the Dragify demo agent backend (Python) in Lean 4,
covering the components referenced by the verified properties below:

* `backend/app/agent/tools/lead_extraction.py` — `extract_lead_info`
  (budget normalization, bedroom-word mapping, failure skeleton);
* `backend/app/agent/tools/registry.py` — `TOOL_REGISTRY`;
* `backend/app/config/flow_config.py` — `user_flows`, `get_user_flow`;
* `backend/app/agent/orchestrator.py` — `AgentOrchestrator._load_tools`
  and the notification-channel handling of `_create_prompt_with_tools`;
* `backend/app/agent/tools/data_sources.py` — `fetch_from_postgres`;
* `backend/app/services/event_logger.py` — `EventLogger._check_and_timeout_events`.

Modelling conventions: Python strings are `String` (list-of-`Char` backed);
Python numbers are `Int`/`ℚ` (CPython binary floats are modelled by exact
rationals; the float literal grammar is modelled without exponents,
underscores, or inf/nan forms, which no verified property depends on);
dictionaries are association lists; fallible or effectful calls (the LLM,
the database session, wall-clock time) are explicit parameters.
-/

/-- A scalar Python/JSON value as it can appear in the object parsed from the
LLM response in `extract_lead_info` (nested arrays/objects are outside the
model; they would only affect the rendered text of string fields). -/
inductive PyVal where
  | str (s : String)
  | int (n : Int)
  | float (q : ℚ)
  | bool (b : Bool)
  | null
deriving DecidableEq, Repr

/-- Python `str(v)` on scalar values. (For `float` the CPython rendering
differs from `toString` on `ℚ`; no verified property depends on the rendered
text of a float, only on the result being a string.) -/
def pyStr : PyVal → String
  | .str s => s
  | .int n => toString n
  | .float q => toString q
  | .bool b => if b then "True" else "False"
  | .null => "None"

/-- Python `s.lower()` (character-wise; the embedding works on the character
list so that it computes by kernel reduction). -/
def pyLower (s : String) : String := String.mk (s.data.map Char.toLower)

/-- Python `s.strip()`: remove whitespace from both ends. -/
def pyStrip (s : String) : String :=
  String.mk (((s.data.dropWhile Char.isWhitespace).reverse.dropWhile Char.isWhitespace).reverse)

/-- Python truthiness of a scalar value (`bool(v)`). -/
def pyTruthy : PyVal → Bool
  | .str s => !s.data.isEmpty
  | .int n => n != 0
  | .float q => q != 0
  | .bool b => b
  | .null => false

/-- Value of a list of decimal digit characters (most significant first),
as accumulated by CPython when parsing an integer literal. -/
def digitsVal (cs : List Char) : Nat :=
  cs.foldl (fun a c => 10 * a + (c.toNat - 48)) 0

/-- Split a character list into its longest digit prefix and the rest
(`re`-style scan used by both the float grammar and the
`^\d+(\.\d+)?$` check below). -/
def spanDigits : List Char → List Char × List Char
  | [] => ([], [])
  | c :: t =>
    if c.isDigit then
      let p := spanDigits t
      (c :: p.1, p.2)
    else ([], c :: t)

/-- CPython `float(s)` on an already-whitespace-free string: optional sign,
then `digits`, `digits.digits?`, or `.digits` (exponents, underscores and
inf/nan are outside the model). `none` models a raised `ValueError`; a
successful parse is the exact decimal value, represented unreduced as a
numerator paired with a power-of-ten denominator. -/
def pyFloat? (cs : List Char) : Option (Int × Nat) :=
  let sr : Int × List Char :=
    if cs.head? = some '-' then (-1, cs.tail)
    else if cs.head? = some '+' then (1, cs.tail)
    else (1, cs)
  let ipr := spanDigits sr.2
  if ipr.2 = [] then
    if ipr.1 = [] then none else some (sr.1 * (digitsVal ipr.1 : Int), 1)
  else if ipr.2.head? = some '.' ∧ ipr.2.tail.all Char.isDigit ∧
      (ipr.1 ≠ [] ∨ ipr.2.tail ≠ []) then
    some (sr.1 * ((digitsVal ipr.1 * 10 ^ ipr.2.tail.length + digitsVal ipr.2.tail : Nat) : Int),
      10 ^ ipr.2.tail.length)
  else none

/-- The regex `^\d+(\.\d+)?$` from `lead_extraction.py` line 94. -/
def regexNum (cs : List Char) : Bool :=
  let p := spanDigits cs
  !p.1.isEmpty &&
    (p.2.isEmpty || (p.2.head? == some '.' && !p.2.tail.isEmpty && p.2.tail.all Char.isDigit))

/-- Python `int(f)` on a float: truncation toward zero, here on an exact
rational. -/
def intTrunc (q : ℚ) : Int := Int.tdiv q.num q.den

/-- `budget_val.upper().replace(" ", "")` (lead_extraction.py line 88):
upper-case every character and delete every space. -/
def cleanup (cs : List Char) : List Char :=
  (cs.map Char.toUpper).filter (fun c => c != ' ')

/-- The string arm of the budget normalization in `extract_lead_info`
(lead_extraction.py lines 87–101): upper-case, delete spaces, then a trailing
`"M"` multiplies the float value of the prefix by 1,000,000; otherwise a bare
`^\d+(\.\d+)?$` numeral is parsed as a float; anything else (including the
`ValueError` arm of the `"M"` branch) yields 0; finally `int(...)` truncates. -/
def normBudgetChars (cs : List Char) : Int :=
  let t := cleanup cs
  if t.getLast? = some 'M' then
    match pyFloat? t.dropLast with
    | some nd => Int.tdiv (nd.1 * 1000000) nd.2
    | none => 0
  else if regexNum t then
    match pyFloat? t with
    | some nd => Int.tdiv nd.1 nd.2
    | none => 0
  else 0

/-- Budget normalization applied to a string field value. -/
def normalize_budget (s : String) : Int := normBudgetChars s.data

/-- Budget normalization on an arbitrary parsed value: strings go through
`normalize_budget`; `int(v)` handles ints, floats (truncation) and bools;
`int(None)` raises and the bare `except` stores 0. -/
def normalizeBudgetVal : PyVal → Int
  | .str s => normalize_budget s
  | .int n => n
  | .float q => intTrunc q
  | .bool b => if b then 1 else 0
  | .null => 0

/-! ## Lead extraction (`lead_extraction.py`, `extract_lead_info`) -/

/-- First-occurrence lookup in an association list (Python `d.get(k)` /
`k in d`). -/
def dictGet {α : Type} (k : String) : List (String × α) → Option α
  | [] => none
  | p :: t => if p.1 = k then some p.2 else dictGet k t

/-- Python `d[k] = v`: replace the value at the first occurrence of `k`,
or append a new binding. -/
def dictSet (d : List (String × PyVal)) (k : String) (v : PyVal) : List (String × PyVal) :=
  match d with
  | [] => [(k, v)]
  | p :: t => if p.1 = k then (p.1, v) :: t else p :: dictSet t k v

/-- The `word_to_num` table of `extract_lead_info` (lines 103–106). -/
def word_to_num : List (String × String) :=
  [("one", "1"), ("two", "2"), ("three", "3"), ("four", "4"),
   ("five", "5"), ("six", "6"), ("seven", "7"), ("eight", "8")]

/-- `required_keys` of `extract_lead_info` (lines 78–81). -/
def required_keys : List String :=
  ["first_name", "last_name", "phone", "location", "property_type", "bedrooms", "budget"]

/-- The all-empty fallback dictionary returned by the `except` arm of
`extract_lead_info` (lines 116–119). -/
def lead_skeleton : List (String × PyVal) :=
  [("first_name", .str ""), ("last_name", .str ""), ("phone", .str ""),
   ("location", .str ""), ("property_type", .str ""), ("bedrooms", .str ""),
   ("budget", .int 0)]

/-- `str(lead_info.get(key, "") or "")` (line 84): a missing key or a falsy
value yields `""`; otherwise the value is rendered as a string. -/
def norm_str_field (d : List (String × PyVal)) (k : String) : String :=
  match dictGet k d with
  | none => ""
  | some v => if pyTruthy v then pyStr v else ""

/-- The budget arm of the required-key loop (lines 86–101):
`lead_info.get("budget", 0)` normalized to an integer. -/
def budget_field (d : List (String × PyVal)) : Int :=
  match dictGet "budget" d with
  | none => 0
  | some v => normalizeBudgetVal v

/-- One iteration of the required-key loop of `extract_lead_info`
(lines 82–101). -/
def set_required (d : List (String × PyVal)) (k : String) : List (String × PyVal) :=
  if k = "budget" then dictSet d k (.int (budget_field d))
  else dictSet d k (.str (norm_str_field d k))

/-- The bedroom-word mapping of `extract_lead_info` (lines 103–109) as a
function of the field value: lower-case, replace a number word by its digit
string, otherwise keep the original value. -/
def normalize_bedrooms (s : String) : String :=
  match dictGet (pyLower s) word_to_num with
  | some dg => dg
  | none => s

/-- The bedroom-word mapping applied to the lead dictionary (lines 107–109).
After the required-key loop the `"bedrooms"` value is always a string, so the
fall-through arm is unreachable there. -/
def bedroom_word_step (d : List (String × PyVal)) : List (String × PyVal) :=
  match dictGet "bedrooms" d with
  | some (.str s) =>
    match dictGet (pyLower s) word_to_num with
    | some dg => dictSet d "bedrooms" (.str dg)
    | none => d
  | _ => d

/-- The normalization applied by `extract_lead_info` to the object parsed
from the LLM response: the required-key loop, then the bedroom-word step. -/
def normalize_lead (raw : List (String × PyVal)) : List (String × PyVal) :=
  bedroom_word_step (required_keys.foldl set_required raw)

/-- `extract_lead_info(message)`. The LLM call and the JSON extraction from
its response text are modelled by the `llm_parse` parameter: `none` models
any exception raised inside the `try` body (invalid LLM response, transport
error, ...), taken by the `except` arm; `some raw` models a run reaching the
required-key loop with `lead_info = raw` (`some []` is the no-JSON-found
path, which does not raise). -/
def extract_lead_info (llm_parse : Option (List (String × PyVal))) : List (String × PyVal) :=
  match llm_parse with
  | none => lead_skeleton
  | some raw => normalize_lead raw

/-! ## Capability registry, flow config, orchestrator
(`registry.py`, `flow_config.py`, `orchestrator.py`) -/

/-- The distinct tool implementations imported by `registry.py`. -/
inductive ToolImpl where
  | extract_lead_info
  | fetch_from_postgres
  | insert_into_zoho
  | insert_into_odoo
  | send_gmail_notification
  | send_outlook_notification
deriving DecidableEq, Repr

/-- `TOOL_REGISTRY` (registry.py lines 6–16). -/
def TOOL_REGISTRY : List (String × ToolImpl) :=
  [("extract_lead_info", .extract_lead_info),
   ("postgresql", .fetch_from_postgres),
   ("fetch_from_postgres", .fetch_from_postgres),
   ("zoho", .insert_into_zoho),
   ("insert_into_zoho", .insert_into_zoho),
   ("odoo", .insert_into_odoo),
   ("insert_into_odoo", .insert_into_odoo),
   ("send_gmail_notification", .send_gmail_notification),
   ("send_outlook_notification", .send_outlook_notification)]

/-- A per-team flow configuration dictionary. `none` models an absent key
(Python `dict.get` returning `None`). -/
structure FlowConfig where
  data_source : Option String
  crm : Option String
  notification_channel : Option String
deriving DecidableEq, Repr

/-- `user_flows` (flow_config.py lines 2–18); the `"T090NR297QD:"` key keeps
the trailing colon of the source. -/
def user_flows : List (String × FlowConfig) :=
  [("team_default", ⟨some "postgresql", some "zoho", some "gmail"⟩),
   ("T090NR297QD:", ⟨some "postgresql", some "zoho", some "outlook"⟩),
   ("T01ABCDE123", ⟨some "sheets", some "zoho", some "outlook"⟩)]

/-- `get_user_flow(team_id)` (flow_config.py lines 20–21):
`user_flows.get(team_id, user_flows["team_default"])`. The outer `Option`
models the `KeyError` Python would raise if `"team_default"` were absent;
it is always `some` because the default entry is present. -/
def get_user_flow (team_id : String) : Option FlowConfig :=
  match dictGet team_id user_flows with
  | some fc => some fc
  | none => dictGet "team_default" user_flows

/-- Python truthiness of `flow_config.get(key)` (`None` and `""` are falsy). -/
def truthyOpt : Option String → Bool
  | none => false
  | some s => !s.data.isEmpty

/-- The notification-channel alias mapping of `_load_tools`
(orchestrator.py lines 43–49). -/
def notification_alias (ch : String) : String :=
  if ch = "gmail" then "send_gmail_notification"
  else if ch = "outlook" then "send_outlook_notification"
  else ch

/-- The `required_tools` list assembled by `_load_tools`
(orchestrator.py lines 31–49). -/
def required_tools (fc : FlowConfig) : List String :=
  ["extract_lead_info"]
    ++ (if truthyOpt fc.data_source then [fc.data_source.getD ""] else [])
    ++ (if truthyOpt fc.crm then [fc.crm.getD ""] else [])
    ++ (if truthyOpt fc.notification_channel then
          [notification_alias (fc.notification_channel.getD "")] else [])

/-- The capability keys contributed by the configuration (everything in
`required_tools` after the always-present extraction entry). -/
def configured_keys (fc : FlowConfig) : List String :=
  (if truthyOpt fc.data_source then [fc.data_source.getD ""] else [])
    ++ (if truthyOpt fc.crm then [fc.crm.getD ""] else [])
    ++ (if truthyOpt fc.notification_channel then
          [notification_alias (fc.notification_channel.getD "")] else [])

/-- The `tools` list built by the registry-lookup loop of `_load_tools`
(orchestrator.py lines 51–56): keys missing from the registry are skipped
(they are only accumulated into the logged `missing` warning). -/
def resolved_tools (fc : FlowConfig) : List ToolImpl :=
  (required_tools fc).filterMap (fun k => dictGet k TOOL_REGISTRY)

/-- `_load_tools` (orchestrator.py lines 26–65): `.error` models the
`KeyError` raised when no tool resolved. -/
def load_tools (fc : FlowConfig) : Except String (List ToolImpl) :=
  if resolved_tools fc = [] then
    .error "No valid tools found. Check flow configuration."
  else .ok (resolved_tools fc)

/-- The notification tool name substituted into the directive prompt by
`_create_prompt_with_tools` (orchestrator.py lines 72–80): unknown channels
fall back to `"send_gmail_notification"` in the prompt text only. -/
def notification_tool_name (fc : FlowConfig) : String :=
  let ch := fc.notification_channel.getD "gmail"
  if ch = "gmail" then "send_gmail_notification"
  else if ch = "outlook" then "send_outlook_notification"
  else "send_gmail_notification"

/-! ## Catalog query (`data_sources.py`, `fetch_from_postgres`) -/

/-- A row of the `projects` table (db/models.py lines 70–85). -/
structure Project where
  name : String
  location : String
  property_type : String
  min_price : Int
  max_price : Int
  min_bedrooms : Int
  max_bedrooms : Int
deriving DecidableEq, Repr

/-- SQL `column ILIKE '%needle%'`: case-insensitive substring containment
(the needle is assumed free of the `%`/`_` wildcard characters). -/
def ilike_contains (hay needle : String) : Bool :=
  decide ((pyLower needle).data <:+: (pyLower hay).data)

/-- CPython `int(s)` on a string: strip whitespace, optional sign, then a
nonempty run of digits (underscore separators are outside the model).
`none` models a raised `ValueError`. -/
def pyInt? (s : String) : Option Int :=
  let cs := (pyStrip s).data
  let sr : Int × List Char :=
    if cs.head? = some '-' then (-1, cs.tail)
    else if cs.head? = some '+' then (1, cs.tail)
    else (1, cs)
  if sr.2 ≠ [] ∧ sr.2.all Char.isDigit then some (sr.1 * (digitsVal sr.2 : Int)) else none

/-- The WHERE clause of the catalog query (data_sources.py lines 33–42),
with the fixed `tolerance = 200_000`. -/
def project_matches (loc ptype : String) (bed budget : Int) (p : Project) : Bool :=
  ilike_contains p.location loc && ilike_contains p.property_type ptype &&
    decide (p.min_price ≤ budget + 200000) && decide (p.max_price ≥ budget - 200000) &&
    decide (p.min_bedrooms ≤ bed) && decide (p.max_bedrooms ≥ bed)

/-- The dictionary returned by `fetch_from_postgres`. `bedrooms` is a `PyVal`
because the error arm returns whatever the local variable holds at the time
of the exception: the parsed `int` after line 26 succeeded, the original
string if line 26 itself raised. -/
structure LeadEnhanced where
  first_name : String
  last_name : String
  phone : String
  location : String
  property_type : String
  bedrooms : PyVal
  budget : Int
  team_id : String
  matched_projects : List String
deriving DecidableEq, Repr

/-- `fetch_from_postgres` (data_sources.py lines 11–72). The projects table
and the availability of the database session are modelled by the `catalog`
and `db_ok` parameters; `db_ok = false` models any exception raised by the
session/query (taken by the `except` arm, which returns the current locals
with `matched_projects = []`). -/
def fetch_from_postgres (catalog : List Project) (db_ok : Bool)
    (location property_type bedrooms : String) (budget : Int)
    (first_name last_name phone team_id : String) : LeadEnhanced :=
  let loc := pyStrip location
  let pt := pyLower (pyStrip property_type)
  match (if bedrooms = "" then some 0 else pyInt? bedrooms) with
  | none =>
    { first_name := first_name, last_name := last_name, phone := phone,
      location := loc, property_type := pt, bedrooms := .str bedrooms,
      budget := budget, team_id := team_id, matched_projects := [] }
  | some bed =>
    if db_ok then
      { first_name := first_name, last_name := last_name, phone := phone,
        location := loc, property_type := pt, bedrooms := .int bed,
        budget := budget, team_id := team_id,
        matched_projects := (catalog.filter (project_matches loc pt bed budget)).map Project.name }
    else
      { first_name := first_name, last_name := last_name, phone := phone,
        location := loc, property_type := pt, bedrooms := .int bed,
        budget := budget, team_id := team_id, matched_projects := [] }

/-! ## Event timeout sweep (`event_logger.py`, `_check_and_timeout_events`) -/

/-- The fields of an `EventLog` row read or written by the timeout sweep
(db/models.py lines 286–302). Timestamps are minutes on an abstract clock. -/
structure EventRec where
  id : Nat
  event_type : String
  status : String
  error_message : Option String
  team_id : Option String
  created_at : Int
deriving DecidableEq, Repr

/-- `EventLogger.timeout_minutes` as set in `__init__` (event_logger.py
line 39). -/
def timeout_minutes : Int := 5

/-- The per-row effect of one sweep of `_check_and_timeout_events`
(event_logger.py lines 256–276) at time `now`: a `"processing"` row created
strictly before `now - timeoutMin` becomes `"error"` with the timeout
message; every other row is untouched. -/
def sweep_event (now timeoutMin : Int) (e : EventRec) : EventRec :=
  if e.status = "processing" ∧ e.created_at < now - timeoutMin then
    { e with status := "error",
             error_message := some ("Event timed out after " ++ toString timeoutMin ++ " minutes") }
  else e

/-- One execution of `_check_and_timeout_events` over the event table. -/
def check_and_timeout_events (now timeoutMin : Int) (evs : List EventRec) : List EventRec :=
  evs.map (sweep_event now timeoutMin)

/-- The shape guarantee of the dictionary returned by `extract_lead_info`:
all seven required keys are present, string-valued except the integer
`"budget"`. -/
def lead_shape_ok (d : List (String × PyVal)) : Prop :=
  (∃ s, dictGet "first_name" d = some (.str s))
    ∧ (∃ s, dictGet "last_name" d = some (.str s))
    ∧ (∃ s, dictGet "phone" d = some (.str s))
    ∧ (∃ s, dictGet "location" d = some (.str s))
    ∧ (∃ s, dictGet "property_type" d = some (.str s))
    ∧ (∃ s, dictGet "bedrooms" d = some (.str s))
    ∧ (∃ n : Int, dictGet "budget" d = some (.int n))

/-! ## Auxiliary lemmas -/

lemma digit_toUpper {c : Char} (h : c.isDigit = true) : c.toUpper = c := by
  simp only [Char.isDigit, ge_iff_le, Bool.and_eq_true, decide_eq_true_eq] at h
  have h2 : c.toNat ≤ 57 := h.2
  unfold Char.toUpper
  rw [if_neg]
  intro hc
  omega

lemma digit_ne {c c' : Char} (h : c.isDigit = true) (h' : c'.isDigit = false) : c ≠ c' := by
  intro e; subst e; rw [h] at h'; simp at h'

lemma cleanup_append (a b : List Char) : cleanup (a ++ b) = cleanup a ++ cleanup b := by
  simp [cleanup, List.filter_append]

lemma cleanup_digits {ds : List Char} (h : ds.all Char.isDigit = true) : cleanup ds = ds := by
  induction ds with
  | nil => rfl
  | cons c t ih =>
    simp only [List.all_cons, Bool.and_eq_true] at h
    have hc := h.1
    simp only [cleanup, List.map_cons, List.filter_cons]
    rw [digit_toUpper hc]
    have hs : (c != ' ') = true := by
      simp only [bne_iff_ne, ne_eq]
      exact digit_ne hc (by decide)
    rw [hs]
    have ht := ih h.2
    simp only [cleanup] at ht
    simp [ht]

lemma spanDigits_append {ds x : List Char} (h : ds.all Char.isDigit = true) :
    spanDigits (ds ++ x) = (ds ++ (spanDigits x).1, (spanDigits x).2) := by
  induction ds with
  | nil => simp
  | cons c t ih =>
    simp only [List.all_cons, Bool.and_eq_true] at h
    simp only [List.cons_append, spanDigits, h.1, if_true, List.append_eq, ih h.2]

lemma spanDigits_all {ds : List Char} (h : ds.all Char.isDigit = true) :
    spanDigits ds = (ds, []) := by
  have hx := @spanDigits_append ds [] h
  simpa [spanDigits] using hx

lemma head?_ne_sign {ds : List Char} (h : ds.all Char.isDigit = true) (c' : Char)
    (h' : c'.isDigit = false) : ¬ ds.head? = some c' := by
  intro e
  cases ds with
  | nil => simp at e
  | cons c t =>
    simp only [List.head?_cons, Option.some.injEq] at e
    subst e
    simp only [List.all_cons, Bool.and_eq_true] at h
    rw [h.1] at h'
    simp at h'

lemma pyFloat?_digits {ds : List Char} (h1 : ds ≠ []) (h2 : ds.all Char.isDigit = true) :
    pyFloat? ds = some ((digitsVal ds : Int), 1) := by
  unfold pyFloat?
  rw [if_neg (head?_ne_sign h2 '-' (by decide)), if_neg (head?_ne_sign h2 '+' (by decide))]
  simp only [spanDigits_all h2]
  simp [h1]

lemma regexNum_digits {ds : List Char} (h1 : ds ≠ []) (h2 : ds.all Char.isDigit = true) :
    regexNum ds = true := by
  unfold regexNum
  simp [spanDigits_all h2, h1]

lemma getLast?_digits_ne {ds : List Char} (h2 : ds.all Char.isDigit = true) (c' : Char)
    (h' : c'.isDigit = false) : ¬ ds.getLast? = some c' := by
  intro e
  have hm : c' ∈ ds := List.mem_of_mem_getLast? e
  simp only [List.all_eq_true] at h2
  have hd := h2 c' hm
  rw [hd] at h'
  simp at h'

lemma normBudget_M_suffix {ds x : List Char} (h1 : ds ≠ []) (h2 : ds.all Char.isDigit = true)
    (hx : cleanup x = ['M']) :
    normBudgetChars (ds ++ x) = (digitsVal ds : Int) * 1000000 := by
  unfold normBudgetChars
  rw [cleanup_append, cleanup_digits h2, hx]
  simp only [List.getLast?_concat, if_pos rfl, List.dropLast_concat, pyFloat?_digits h1 h2]
  rw [Nat.cast_one, Int.tdiv_one]
  simp

lemma normBudget_bare {ds : List Char} (h1 : ds ≠ []) (h2 : ds.all Char.isDigit = true) :
    normBudgetChars ds = (digitsVal ds : Int) := by
  unfold normBudgetChars
  rw [cleanup_digits h2]
  rw [if_neg (getLast?_digits_ne h2 'M' (by decide)), if_pos (regexNum_digits h1 h2),
    pyFloat?_digits h1 h2]
  simp [Int.tdiv_one]

lemma regexNum_digits_nondigit {ds x : List Char} (h2 : ds.all Char.isDigit = true)
    (c : Char) (hc : c.isDigit = false) (hx : x.head? = some c) (hdot : c ≠ '.') :
    regexNum (ds ++ x) = false := by
  unfold regexNum
  rw [spanDigits_append h2]
  cases x with
  | nil => simp at hx
  | cons c0 t =>
    simp only [List.head?_cons, Option.some.injEq] at hx
    subst hx
    simp only [spanDigits, hc, if_false, Bool.if_false_left]
    simp [hdot]

lemma normBudget_junk_suffix {ds x x' : List Char} (h2 : ds.all Char.isDigit = true)
    (hx : cleanup x = x') (c : Char) (hc : c.isDigit = false) (hhead : x'.head? = some c)
    (hdot : c ≠ '.') (hlast : ¬ x'.getLast? = some 'M') :
    normBudgetChars (ds ++ x) = 0 := by
  unfold normBudgetChars
  rw [cleanup_append, cleanup_digits h2, hx]
  have hne : x' ≠ [] := by
    intro e; rw [e] at hhead; simp at hhead
  have hg : ¬ (ds ++ x').getLast? = some 'M' := by
    rw [List.getLast?_append_of_ne_nil ds hne]; exact hlast
  have hre : regexNum (ds ++ x') = false := regexNum_digits_nondigit h2 c hc hhead hdot
  rw [if_neg hg, if_neg (by simp [hre])]

/-! ## C1 — budget normalization -/

/-- **C1** (amended): after upper-casing and deleting spaces, an input of the
form `{digits}{M}` (any case of `m`, with or without a separating space)
normalizes to `digits * 1_000_000`; a bare digit string normalizes to its
value (decimals are truncated toward zero, as the concrete conjuncts show);
and `{digits}K`, `{digits}MILLION`, `{digits}THOUSAND` and other unparseable
inputs normalize to 0. The function is total, so it never raises. -/
theorem c1_budget_normalization (ds : List Char) (h1 : ds ≠ [])
    (h2 : ds.all Char.isDigit = true) :
    (normalize_budget (String.mk (ds ++ ['M'])) = (digitsVal ds : Int) * 1000000
      ∧ normalize_budget (String.mk (ds ++ ['m'])) = (digitsVal ds : Int) * 1000000
      ∧ normalize_budget (String.mk (ds ++ [' ', 'M'])) = (digitsVal ds : Int) * 1000000)
    ∧ normalize_budget (String.mk ds) = (digitsVal ds : Int)
    ∧ (normalize_budget (String.mk (ds ++ ['K'])) = 0
      ∧ normalize_budget (String.mk (ds ++ ('M' :: "ILLION".data))) = 0
      ∧ normalize_budget (String.mk (ds ++ "THOUSAND".data)) = 0)
    ∧ (normalize_budget "3.5M" = 3500000
      ∧ normalize_budget "1.2345678M" = 1234567
      ∧ normalize_budget "2.9" = 2
      ∧ normalize_budget "" = 0
      ∧ normalize_budget "abc" = 0) := by
  refine ⟨⟨?_, ?_, ?_⟩, ?_, ⟨?_, ?_, ?_⟩, by decide, by decide, by decide, by decide, by decide⟩
  · exact normBudget_M_suffix h1 h2 (by decide)
  · exact normBudget_M_suffix h1 h2 (by decide)
  · exact normBudget_M_suffix h1 h2 (by decide)
  · exact normBudget_bare h1 h2
  · exact @normBudget_junk_suffix ds ['K'] ['K'] h2 (by decide) 'K' (by decide) (by decide)
      (by decide) (by decide)
  · exact @normBudget_junk_suffix ds ('M' :: "ILLION".data) ('M' :: "ILLION".data) h2
      (by decide) 'M' (by decide) (by decide) (by decide) (by decide)
  · exact @normBudget_junk_suffix ds "THOUSAND".data "THOUSAND".data h2
      (by decide) 'T' (by decide) (by decide) (by decide) (by decide)

/-- **C1** witness: the general theorem applied at the concrete digit string
`"5"`, plus the concrete evaluation it implies. -/
theorem c1_budget_normalization_witness :
    normalize_budget (String.mk (['5'] ++ ['M'])) = (digitsVal ['5'] : Int) * 1000000
      ∧ normalize_budget "5M" = 5000000 :=
  ⟨(c1_budget_normalization ['5'] (by decide) (by decide)).1.1, by decide⟩

/-- **C1** counterexample to the claim as stated: the code does not recognize
`K`/`thousand`/`million` multipliers (those inputs normalize to 0, not to
`round(number * multiplier)`), and the `M` arm truncates instead of rounding
(`"1.2345678M"` gives 1234567, not 1234568). -/
theorem c1_budget_normalization_counterexample :
    normalize_budget "500K" = 0
      ∧ normalize_budget "2MILLION" = 0
      ∧ normalize_budget "2 Million" = 0
      ∧ ¬ normalize_budget "1.2345678M" = 1234568 :=
  ⟨by decide, by decide, by decide, by decide⟩

/-! ## C7 — timeout sweep -/

lemma sweep_event_idem (now tm : Int) (e : EventRec) :
    sweep_event now tm (sweep_event now tm e) = sweep_event now tm e := by
  by_cases hc : e.status = "processing" ∧ e.created_at < now - tm
  · have h1 : sweep_event now tm e =
        { e with status := "error",
                 error_message := some ("Event timed out after " ++ toString tm ++ " minutes") } := by
      rw [sweep_event, if_pos hc]
    rw [h1, sweep_event, if_neg (by simp)]
  · have h1 : sweep_event now tm e = e := by rw [sweep_event, if_neg hc]
    rw [h1]
    exact h1

/-- **C7**: a `"processing"` event older than the cutoff is reclassified to
`"error"` with a populated `error_message` by one sweep; events that are not
`"processing"`, or not past the cutoff, are unchanged; an already-errored
event is unchanged by any later sweep; and a full sweep over the table is
idempotent. -/
theorem c7_timeout_sweep (now now2 tm tm2 : Int) (e : EventRec) (evs : List EventRec) :
    (e.status = "processing" → e.created_at < now - tm →
      ((sweep_event now tm e).status = "error" ∧ (sweep_event now tm e).error_message ≠ none))
    ∧ (e.status ≠ "processing" → sweep_event now tm e = e)
    ∧ (¬ e.created_at < now - tm → sweep_event now tm e = e)
    ∧ (e.status = "error" → sweep_event now2 tm2 e = e)
    ∧ check_and_timeout_events now tm (check_and_timeout_events now tm evs)
        = check_and_timeout_events now tm evs := by
  refine ⟨?_, ?_, ?_, ?_, ?_⟩
  · intro h1 h2
    rw [sweep_event, if_pos ⟨h1, h2⟩]
    simp
  · intro h
    rw [sweep_event, if_neg]
    intro hc
    exact h hc.1
  · intro h
    rw [sweep_event, if_neg]
    intro hc
    exact h hc.2
  · intro h
    rw [sweep_event, if_neg]
    intro hc
    rw [h] at hc
    simp at hc
  · induction evs with
    | nil => rfl
    | cons a t ih =>
      simp only [check_and_timeout_events, List.map_cons] at ih ⊢
      rw [sweep_event_idem now tm, ih]

/-- **C7** witness: the sweep at time 100 with the 5-minute timeout errors a
processing event created at time 90. -/
theorem c7_timeout_sweep_witness :
    (sweep_event 100 5 ⟨7, "lead_processed", "processing", none, some "T1", 90⟩).status = "error"
      ∧ (sweep_event 100 5 ⟨7, "lead_processed", "processing", none, some "T1", 90⟩).error_message
          ≠ none :=
  (c7_timeout_sweep 100 100 5 5 ⟨7, "lead_processed", "processing", none, some "T1", 90⟩ []).1
    rfl (by decide)

/-! ## C8 — flow resolution -/

/-- **C8**: `get_user_flow` returns the exact configured tuple for a team
present in the table, the `"team_default"` tuple for any absent team, and is
total (the default entry is present, so the `KeyError` arm is never taken). -/
theorem c8_flow_resolution :
    (∀ t fc, dictGet t user_flows = some fc → get_user_flow t = some fc)
    ∧ (∀ t, dictGet t user_flows = none → get_user_flow t = get_user_flow "team_default")
    ∧ (∀ t, (get_user_flow t).isSome = true)
    ∧ get_user_flow "team_default" = some ⟨some "postgresql", some "zoho", some "gmail"⟩
    ∧ get_user_flow "T090NR297QD:" = some ⟨some "postgresql", some "zoho", some "outlook"⟩
    ∧ get_user_flow "T01ABCDE123" = some ⟨some "sheets", some "zoho", some "outlook"⟩ := by
  refine ⟨?_, ?_, ?_, by decide, by decide, by decide⟩
  · intro t fc h
    simp [get_user_flow, h]
  · intro t h
    simp only [get_user_flow, h]
    decide
  · intro t
    cases h : dictGet t user_flows with
    | some fc => simp [get_user_flow, h]
    | none =>
      simp only [get_user_flow, h]
      decide

/-- **C8** witness: an unknown team resolves to the default flow. -/
theorem c8_flow_resolution_witness :
    get_user_flow "team_without_config" = get_user_flow "team_default" :=
  c8_flow_resolution.2.1 "team_without_config" (by decide)

/-! ## C9 — bedroom-word mapping -/

lemma dictGet_dictSet_self (d : List (String × PyVal)) (k : String) (v : PyVal) :
    dictGet k (dictSet d k v) = some v := by
  induction d with
  | nil => simp [dictSet, dictGet]
  | cons p t ih =>
    by_cases hp : p.1 = k
    · simp [dictSet, hp, dictGet]
    · simp [dictSet, hp, dictGet, ih]

lemma dictGet_dictSet_ne (d : List (String × PyVal)) (k k' : String) (v : PyVal)
    (h : ¬ k' = k) : dictGet k' (dictSet d k v) = dictGet k' d := by
  induction d with
  | nil =>
    simp only [dictSet, dictGet]
    rw [if_neg (fun e => h e.symm)]
  | cons p t ih =>
    by_cases hp : p.1 = k
    · simp only [dictSet, hp, if_pos rfl]
      have hne : ¬ k = k' := fun e => h e.symm
      simp only [dictGet]
      rw [if_neg hne, if_neg (hp ▸ hne)]
    · simp only [dictSet, if_neg hp, dictGet]
      by_cases hq : p.1 = k'
      · rw [if_pos hq, if_pos hq]
      · rw [if_neg hq, if_neg hq, ih]

/-- **C9**: a bedrooms value whose lower-casing is one of the number words
"one".."eight" is replaced by its digit string; every other value (including
the empty string) passes through unchanged, preserving its original case;
and the dictionary-level step of `extract_lead_info` applies exactly this
mapping to the `"bedrooms"` field. -/
theorem c9_bedroom_word_mapping :
    (∀ s dg, dictGet (pyLower s) word_to_num = some dg → normalize_bedrooms s = dg)
    ∧ (∀ s, dictGet (pyLower s) word_to_num = none → normalize_bedrooms s = s)
    ∧ (normalize_bedrooms "three" = "3" ∧ normalize_bedrooms "THREE" = "3"
        ∧ normalize_bedrooms "Seven" = "7" ∧ normalize_bedrooms "one" = "1"
        ∧ normalize_bedrooms "eight" = "8")
    ∧ (normalize_bedrooms "" = "" ∧ normalize_bedrooms "nine" = "nine"
        ∧ normalize_bedrooms "studio" = "studio" ∧ normalize_bedrooms "3" = "3")
    ∧ (∀ d s, dictGet "bedrooms" d = some (.str s) →
        dictGet "bedrooms" (bedroom_word_step d) = some (.str (normalize_bedrooms s))) := by
  refine ⟨?_, ?_, ⟨by decide, by decide, by decide, by decide, by decide⟩,
    ⟨by decide, by decide, by decide, by decide⟩, ?_⟩
  · intro s dg h
    simp [normalize_bedrooms, h]
  · intro s h
    simp [normalize_bedrooms, h]
  · intro d s h
    unfold bedroom_word_step
    rw [h]
    cases hw : dictGet (pyLower s) word_to_num with
    | some dg =>
      simp only [normalize_bedrooms, hw]
      exact dictGet_dictSet_self d "bedrooms" (.str dg)
    | none =>
      simp only [normalize_bedrooms, hw]
      exact h

/-- **C9** witness: the general theorem applied at `"Four"` (mapped) and
`"attic"` (passed through). -/
theorem c9_bedroom_word_mapping_witness :
    normalize_bedrooms "Four" = "4" ∧ normalize_bedrooms "attic" = "attic" :=
  ⟨c9_bedroom_word_mapping.1 "Four" "4" (by decide),
   c9_bedroom_word_mapping.2.1 "attic" (by decide)⟩

/-! ## C2, C4, C10, C3 — registry, flow table and orchestrator construction -/

/-- **C2** counterexample to the claim as stated: the flow entry
`"T01ABCDE123"` references the data_source `"sheets"`, and looking
`"sheets"` up in the capability registry fails. -/
theorem c2_registry_flow_consistency_counterexample :
    dictGet "T01ABCDE123" user_flows = some ⟨some "sheets", some "zoho", some "outlook"⟩
      ∧ dictGet "sheets" TOOL_REGISTRY = none :=
  ⟨by decide, by decide⟩

/-- **C2** (amended): for every entry of the flow table, the crm key and the
alias-mapped notification channel resolve in the registry, and the
data_source key resolves except for the unregistered `"sheets"` referenced
by `"T01ABCDE123"`. -/
theorem c2_registry_flow_consistency (t : String) (fc : FlowConfig)
    (h : (t, fc) ∈ user_flows) :
    (∀ c, fc.crm = some c → (dictGet c TOOL_REGISTRY).isSome = true)
    ∧ (∀ ch, fc.notification_channel = some ch →
        (dictGet (notification_alias ch) TOOL_REGISTRY).isSome = true)
    ∧ (∀ d, fc.data_source = some d → d ≠ "sheets" →
        (dictGet d TOOL_REGISTRY).isSome = true) := by
  fin_cases h
  · refine ⟨?_, ?_, ?_⟩
    · intro c hc; simp only [Option.some.injEq] at hc; subst hc; decide
    · intro ch hch; simp only [Option.some.injEq] at hch; subst hch; decide
    · intro d hd hne; simp only [Option.some.injEq] at hd; subst hd; decide
  · refine ⟨?_, ?_, ?_⟩
    · intro c hc; simp only [Option.some.injEq] at hc; subst hc; decide
    · intro ch hch; simp only [Option.some.injEq] at hch; subst hch; decide
    · intro d hd hne; simp only [Option.some.injEq] at hd; subst hd; decide
  · refine ⟨?_, ?_, ?_⟩
    · intro c hc; simp only [Option.some.injEq] at hc; subst hc; decide
    · intro ch hch; simp only [Option.some.injEq] at hch; subst hch; decide
    · intro d hd hne; simp only [Option.some.injEq] at hd; subst hd
      exact absurd rfl hne

/-- **C2** witness: the amended theorem applied at the `"team_default"`
entry. -/
theorem c2_registry_flow_consistency_witness :
    (dictGet "zoho" TOOL_REGISTRY).isSome = true :=
  (c2_registry_flow_consistency "team_default" ⟨some "postgresql", some "zoho", some "gmail"⟩
    (by decide)).1 "zoho" rfl

lemma required_tools_eq (fc : FlowConfig) :
    required_tools fc = "extract_lead_info" :: configured_keys fc := by
  simp [required_tools, configured_keys]

lemma resolved_tools_eq (fc : FlowConfig) :
    resolved_tools fc
      = ToolImpl.extract_lead_info
          :: (configured_keys fc).filterMap (fun k => dictGet k TOOL_REGISTRY) := by
  rw [resolved_tools, required_tools_eq, List.filterMap_cons]
  rfl

/-- **C4**: for every flow configuration, `_load_tools` returns the
extraction capability followed by the configured data_source, crm and
(alias-mapped) notification keys that resolve in the registry — keys that
fail to resolve are skipped (only logged) — and it raises its configuration
`KeyError` if and only if the resolved capability list is empty. -/
theorem c4_load_tools_contract (fc : FlowConfig) :
    load_tools fc =
      .ok (ToolImpl.extract_lead_info
            :: (configured_keys fc).filterMap (fun k => dictGet k TOOL_REGISTRY))
    ∧ ((∃ e, load_tools fc = .error e) ↔ resolved_tools fc = []) := by
  have hr := resolved_tools_eq fc
  constructor
  · rw [load_tools, if_neg (by rw [hr]; simp), hr]
  · constructor
    · rintro ⟨e, he⟩
      rw [load_tools] at he
      split at he
      · assumption
      · simp at he
    · intro h
      rw [hr] at h
      simp at h

/-- **C10**: the no-usable-capabilities error of `_load_tools` is
unreachable — for every flow configuration whatsoever the always-registered
`"extract_lead_info"` capability heads the resolved list, so the list is
nonempty and the `KeyError` branch never fires. -/
theorem c10_no_usable_capabilities_unreachable (fc : FlowConfig) :
    ∃ l, load_tools fc = .ok l ∧ l ≠ []
      ∧ l.head? = some ToolImpl.extract_lead_info := by
  have hr := resolved_tools_eq fc
  refine ⟨resolved_tools fc, ?_, ?_, ?_⟩
  · rw [load_tools, if_neg (by rw [hr]; simp)]
  · rw [hr]; simp
  · rw [hr]; simp

/-- **C3** (amended): for a configured notification channel that is neither
`"gmail"` nor `"outlook"` nor registered, the directive prompt's
notification step falls back to naming `"send_gmail_notification"`, but
`_load_tools` loads exactly the tools it would load with no notification
channel at all — no default notification capability is substituted into the
tool list. -/
theorem c3_notification_fallback (fc : FlowConfig) (ch : String)
    (hch : fc.notification_channel = some ch) (hg : ch ≠ "gmail") (ho : ch ≠ "outlook")
    (hreg : dictGet ch TOOL_REGISTRY = none) :
    notification_tool_name fc = "send_gmail_notification"
      ∧ resolved_tools fc = resolved_tools ⟨fc.data_source, fc.crm, none⟩ := by
  constructor
  · simp [notification_tool_name, hch, hg, ho]
  · by_cases hce : ch = ""
    · subst hce
      simp [resolved_tools, required_tools, hch, truthyOpt]
    · have hchd : ch.data ≠ [] := by
        intro e
        apply hce
        cases ch
        simp only at e
        simp [e]
      have hemp : ch.data.isEmpty = false := by
        cases hc : ch.data with
        | nil => exact absurd hc hchd
        | cons a t => rfl
      have hal : notification_alias ch = ch := by
        simp [notification_alias, hg, ho]
      simp only [resolved_tools, required_tools, hch]
      simp only [truthyOpt, hemp, hal, Option.getD_some, Bool.not_false, if_true]
      have hsing : List.filterMap (fun k => dictGet k TOOL_REGISTRY) [ch] = [] := by
        simp [hreg]
      rw [List.filterMap_append, List.filterMap_append, hsing]
      simp [← List.filterMap_append]

/-- **C3** witness: the amended theorem applied at the unknown channel
`"sms"`. -/
theorem c3_notification_fallback_witness :
    notification_tool_name ⟨none, none, some "sms"⟩ = "send_gmail_notification"
      ∧ resolved_tools ⟨none, none, some "sms"⟩ = resolved_tools ⟨none, none, none⟩ :=
  c3_notification_fallback ⟨none, none, some "sms"⟩ "sms" rfl (by decide) (by decide) (by decide)

/-- **C3** counterexample to the claim as stated: with the unknown channel
`"sms"` the loaded tool list is just the extraction capability — the run has
no notification capability, so no safe default was substituted into it. -/
theorem c3_notification_fallback_counterexample :
    load_tools ⟨none, none, some "sms"⟩ = .ok [ToolImpl.extract_lead_info]
      ∧ ToolImpl.send_gmail_notification ∉ [ToolImpl.extract_lead_info]
      ∧ ToolImpl.send_outlook_notification ∉ [ToolImpl.extract_lead_info] := by
  refine ⟨?_, by decide, by decide⟩
  rfl

/-! ## C6 — enrichment matching -/

/-- **C6** (amended): with a live database, `matched_projects` is exactly the
names of the catalog records whose location/property_type contain the lead's
stripped location and stripped lower-cased property type case-insensitively,
whose price band overlaps `[budget - 200000, budget + 200000]` (the
inequality pair of the query is equivalent to interval overlap whenever
`min_price ≤ max_price`), and whose bedroom range contains the parsed
bedroom count; on a query failure the function returns the lead data with
location stripped and property_type stripped and lower-cased and
`matched_projects = []`; an unparseable bedrooms value also yields
`matched_projects = []`. The function is total, so it never raises. -/
theorem c6_enrichment_matching (catalog : List Project)
    (location property_type bedrooms : String) (budget : Int)
    (first_name last_name phone team_id : String) :
    (∀ bed, (if bedrooms = "" then some 0 else pyInt? bedrooms) = some bed →
      (fetch_from_postgres catalog true location property_type bedrooms budget
          first_name last_name phone team_id).matched_projects
        = (catalog.filter (fun p =>
            ilike_contains p.location (pyStrip location)
              && ilike_contains p.property_type (pyLower (pyStrip property_type))
              && decide (p.min_price ≤ budget + 200000)
              && decide (p.max_price ≥ budget - 200000)
              && decide (p.min_bedrooms ≤ bed)
              && decide (p.max_bedrooms ≥ bed))).map Project.name)
    ∧ (∀ p : Project, p.min_price ≤ p.max_price →
        ((p.min_price ≤ budget + 200000 ∧ p.max_price ≥ budget - 200000) ↔
          ∃ x : Int, p.min_price ≤ x ∧ x ≤ p.max_price
            ∧ budget - 200000 ≤ x ∧ x ≤ budget + 200000))
    ∧ ((fetch_from_postgres catalog false location property_type bedrooms budget
          first_name last_name phone team_id).matched_projects = []
        ∧ (fetch_from_postgres catalog false location property_type bedrooms budget
            first_name last_name phone team_id).first_name = first_name
        ∧ (fetch_from_postgres catalog false location property_type bedrooms budget
            first_name last_name phone team_id).location = pyStrip location
        ∧ (fetch_from_postgres catalog false location property_type bedrooms budget
            first_name last_name phone team_id).property_type
              = pyLower (pyStrip property_type)
        ∧ (fetch_from_postgres catalog false location property_type bedrooms budget
            first_name last_name phone team_id).budget = budget
        ∧ (fetch_from_postgres catalog false location property_type bedrooms budget
            first_name last_name phone team_id).team_id = team_id)
    ∧ (bedrooms ≠ "" → pyInt? bedrooms = none →
        (fetch_from_postgres catalog true location property_type bedrooms budget
          first_name last_name phone team_id).matched_projects = []) := by
  refine ⟨?_, ?_, ?_, ?_⟩
  · intro bed h
    unfold fetch_from_postgres
    rw [h]
    rfl
  · intro p hp
    constructor
    · intro ⟨h1, h2⟩
      by_cases hbp : p.min_price ≤ budget - 200000
      · exact ⟨budget - 200000, by omega, by omega, by omega, by omega⟩
      · exact ⟨p.min_price, by omega, by omega, by omega, by omega⟩
    · rintro ⟨x, hx1, hx2, hx3, hx4⟩
      exact ⟨by omega, by omega⟩
  · unfold fetch_from_postgres
    cases h : (if bedrooms = "" then some 0 else pyInt? bedrooms) with
    | none => exact ⟨rfl, rfl, rfl, rfl, rfl, rfl⟩
    | some bed => exact ⟨rfl, rfl, rfl, rfl, rfl, rfl⟩
  · intro h1 h2
    unfold fetch_from_postgres
    rw [if_neg h1, h2]

/-- **C6** witness: the match-set equation applied at a concrete catalog and
lead, and evaluated. -/
theorem c6_enrichment_matching_witness :
    (fetch_from_postgres [⟨"P1", "New Cairo East", "Villa Standalone", 7800000, 8200000, 3, 4⟩,
        ⟨"P2", "Maadi", "studio", 900000, 1100000, 0, 1⟩] true
      " new cairo " "Villa" "3" 8000000 "Sarah" "J" "0123" "T1").matched_projects = ["P1"] := by
  rw [(c6_enrichment_matching
    [⟨"P1", "New Cairo East", "Villa Standalone", 7800000, 8200000, 3, 4⟩,
     ⟨"P2", "Maadi", "studio", 900000, 1100000, 0, 1⟩]
    " new cairo " "Villa" "3" 8000000 "Sarah" "J" "0123" "T1").1 3 (by decide)]
  decide

/-- **C6** counterexample to the claim as stated: on failure the returned
dictionary is not the input lead data verbatim — property_type is
lower-cased and location is stripped before the query. -/
theorem c6_enrichment_matching_counterexample :
    (fetch_from_postgres [] false "Cairo" "Villa" "3" 1000000 "x" "y" "z" "T").property_type
        = "villa"
      ∧ ("villa" : String) ≠ "Villa"
      ∧ (fetch_from_postgres [] false " Cairo " "villa" "3" 1000000 "x" "y" "z" "T").location
          = "Cairo"
      ∧ ("Cairo" : String) ≠ " Cairo " :=
  ⟨by decide, by decide, by decide, by decide⟩

/-! ## C5 — extraction degradation and shape -/

lemma bedroom_word_step_get_other (d : List (String × PyVal)) (k : String)
    (hk : ¬ k = "bedrooms") : dictGet k (bedroom_word_step d) = dictGet k d := by
  cases h : dictGet "bedrooms" d with
  | none => simp [bedroom_word_step, h]
  | some v =>
    cases v with
    | str s =>
      cases hw : dictGet (pyLower s) word_to_num with
      | some dg =>
        simp only [bedroom_word_step, h, hw]
        exact dictGet_dictSet_ne d "bedrooms" k _ hk
      | none => simp [bedroom_word_step, h, hw]
    | int n => simp [bedroom_word_step, h]
    | float q => simp [bedroom_word_step, h]
    | bool b => simp [bedroom_word_step, h]
    | null => simp [bedroom_word_step, h]

lemma bedroom_word_step_get_bedrooms (d : List (String × PyVal)) (s : String)
    (h : dictGet "bedrooms" d = some (.str s)) :
    ∃ s2, dictGet "bedrooms" (bedroom_word_step d) = some (.str s2) := by
  cases hw : dictGet (pyLower s) word_to_num with
  | some dg =>
    refine ⟨dg, ?_⟩
    simp only [bedroom_word_step, h, hw]
    exact dictGet_dictSet_self d "bedrooms" (.str dg)
  | none =>
    refine ⟨s, ?_⟩
    simp [bedroom_word_step, h, hw]

/-- **C5**: when extraction fails (any exception in the `try` body —
invalid LLM response, transport error, ...), `extract_lead_info` returns
exactly the all-empty skeleton: every string field `""` and budget `0`; the
no-JSON-found path produces the same skeleton; and for every outcome the
returned dictionary contains all seven required keys, string-valued except
the integer budget. The function is total, so it never raises. -/
theorem c5_extraction_degradation :
    extract_lead_info none = lead_skeleton
      ∧ extract_lead_info (some []) = lead_skeleton
      ∧ ∀ llm, lead_shape_ok (extract_lead_info llm) := by
  refine ⟨rfl, by decide, ?_⟩
  intro llm
  cases llm with
  | none =>
    show lead_shape_ok lead_skeleton
    simp [lead_shape_ok, lead_skeleton, dictGet]
  | some raw =>
    show lead_shape_ok (normalize_lead raw)
    unfold normalize_lead
    have hbed : dictGet "bedrooms" (required_keys.foldl set_required raw)
        = some (.str (norm_str_field (List.foldl set_required
            (set_required (set_required (set_required (set_required
              (set_required raw "first_name") "last_name") "phone") "location")
              "property_type") []) "bedrooms")) := by
      simp [required_keys, set_required, dictGet_dictSet_self, dictGet_dictSet_ne]
    refine ⟨?_, ?_, ?_, ?_, ?_, ?_, ?_⟩
    · rw [bedroom_word_step_get_other _ _ (by decide)]
      simp [required_keys, set_required, dictGet_dictSet_self, dictGet_dictSet_ne]
    · rw [bedroom_word_step_get_other _ _ (by decide)]
      simp [required_keys, set_required, dictGet_dictSet_self, dictGet_dictSet_ne]
    · rw [bedroom_word_step_get_other _ _ (by decide)]
      simp [required_keys, set_required, dictGet_dictSet_self, dictGet_dictSet_ne]
    · rw [bedroom_word_step_get_other _ _ (by decide)]
      simp [required_keys, set_required, dictGet_dictSet_self, dictGet_dictSet_ne]
    · rw [bedroom_word_step_get_other _ _ (by decide)]
      simp [required_keys, set_required, dictGet_dictSet_self, dictGet_dictSet_ne]
    · exact bedroom_word_step_get_bedrooms _ _ hbed
    · rw [bedroom_word_step_get_other _ _ (by decide)]
      simp [required_keys, set_required, dictGet_dictSet_self, dictGet_dictSet_ne]
